import Mathlib

/-!
Verification of the two-pic-backend connection registry, relay and pairing
service against its natural-language specification.

The development is a shallow embedding of the Go sources:
* `WSHub` (services/websocket.go in `src/unnamed/part_004`): the connection
  registry (`Register`, `Unregister`, `SendToUser`, `IsOnline`,
  `TriggerPhoto`, `NotifyPartnerStatus`, and the unexported stub
  `notifyPartnerStatus`).
* `WebSocketHandler` (`src/internal/handlers/websocket.go`): the lifecycle
  handler (`connectFlow` / `disconnectFlow` for the register / deferred
  unregister segments of `HandleWebSocket`), the read loop (`readLoop`),
  and the relay (`handleMessage`, `handleTriggerPhoto`,
  `handlePhotoUploaded`, `sendError`, `sendErrorToUser`).
* `PairService.CreatePair` (second file in `src/unnamed/part_004`).

Go's `map[string]*websocket.Conn` is embedded as an association list with
map-update semantics; connection handles are opaque numeric identifiers.
The external world is passed in explicitly: `W c` says whether a write on
handle `c` succeeds, `pairOf` is the pairing collaborator
(`PairService.GetPairByUserID`), `updateOk` the storage collaborator
(`PhotoService.UpdatePhotoS3URL`), and `now` the wall clock
(`time.Now().UnixMilli()`).  A `HubState` additionally records, as
observable traces, the handles that were closed (`closed`), the successful
writes in order (`sent`), and the storage-collaborator invocations
(`updates`).
-/

/-- An authenticated user identity (Go: the `userID` string). -/
abbrev Identity := String

/-- An opaque connection handle (Go: a `*websocket.Conn` pointer). -/
abbrev ConnId := Nat

/-- Structured payload of the `data` field (Go: `map[string]interface{}`);
only the `pair_status` shape is needed by the claims. -/
inductive WSData where
  | pairStatus (has_pair : Bool) (pair_id : Option String)
deriving DecidableEq, Repr

/-- Go struct `WSMessage` with its JSON field names; absent fields keep
their zero values, mirroring `omitempty`. -/
structure WSMessage where
  type : String := ""
  timestamp : Int := 0
  initiator_id : String := ""
  photo_id : String := ""
  s3_url : String := ""
  online : Option Bool := none
  message : String := ""
  data : Option WSData := none
deriving DecidableEq, Repr

/-- Go struct `models.Pair`. -/
structure Pair where
  ID : String
  UserAID : String
  UserBID : String
  CreatedAt : Int := 0
deriving DecidableEq, Repr

/-- Go struct `models.User` (the fields `CreatePair` reads). -/
structure User where
  ID : String
  Code : String
deriving DecidableEq, Repr

/-- State of the `WSHub` plus observable traces: `connections` is the Go
map `connections map[string]*websocket.Conn`; `closed` records every
`conn.Close()` call; `sent` every successful `conn.WriteMessage`; and
`updates` every `PhotoService.UpdatePhotoS3URL` invocation. -/
structure HubState where
  connections : List (Identity × ConnId) := []
  closed : List ConnId := []
  sent : List (ConnId × WSMessage) := []
  updates : List (String × String) := []
deriving DecidableEq, Repr

/-- Go map read `conn, exists := h.connections[userID]`. -/
def lookupConn : List (Identity × ConnId) → Identity → Option ConnId
  | [], _ => none
  | (k, v) :: rest, u => if k = u then some v else lookupConn rest u

/-- Go map write `h.connections[userID] = conn`: replace the entry if the
key is present, append it otherwise. -/
def setConn : List (Identity × ConnId) → Identity → ConnId → List (Identity × ConnId)
  | [], u, c => [(u, c)]
  | (k, v) :: rest, u, c =>
      if k = u then (u, c) :: rest else (k, v) :: setConn rest u c

/-- Go map delete `delete(h.connections, userID)`. -/
def eraseConn : List (Identity × ConnId) → Identity → List (Identity × ConnId)
  | [], _ => []
  | (k, v) :: rest, u => if k = u then rest else (k, v) :: eraseConn rest u

/-- Number of entries an association list holds for a key. -/
def countKey : List (Identity × ConnId) → Identity → Nat
  | [], _ => 0
  | (k, _) :: rest, u => (if k = u then 1 else 0) + countKey rest u

/-- Well-formedness of the embedded map: a Go map holds at most one entry
per key. -/
def WFconns (l : List (Identity × ConnId)) : Prop :=
  ∀ u, countKey l u ≤ 1

/-- Well-formedness of a hub state. -/
def WF (st : HubState) : Prop := WFconns st.connections

namespace WSHub

/-- Go `func (h *WSHub) notifyPartnerStatus(userID string, online bool)`:
the unexported method launched by `Register`/`Unregister` is an empty stub
(its body is a comment deferring the work to the handler), so it has no
effect on any state. -/
def notifyPartnerStatus (st : HubState) (_userID : Identity) (_online : Bool) :
    HubState :=
  st

/-- Go `func (h *WSHub) Register(userID string, conn *websocket.Conn) error`:
close the existing connection if any, install the new one, then launch the
(no-op) `notifyPartnerStatus` goroutine.  Always returns `nil`. -/
def Register (st : HubState) (userID : Identity) (conn : ConnId) : HubState :=
  let st1 :=
    match lookupConn st.connections userID with
    | some existing => { st with closed := st.closed ++ [existing] }
    | none => st
  let st2 := { st1 with connections := setConn st1.connections userID conn }
  notifyPartnerStatus st2 userID true

/-- Go `func (h *WSHub) Unregister(userID string)`: if an entry exists,
close its handle and delete the entry; then launch the (no-op)
`notifyPartnerStatus` goroutine. -/
def Unregister (st : HubState) (userID : Identity) : HubState :=
  let st1 :=
    match lookupConn st.connections userID with
    | some conn =>
        { st with
          closed := st.closed ++ [conn]
          connections := eraseConn st.connections userID }
    | none => st
  notifyPartnerStatus st1 userID false

/-- The non-nil errors `SendToUser` can return: `user %s is not connected`
and `failed to send message: %w`. -/
inductive SendErr where
  | notConnected (userID : Identity)
  | sendFailed
deriving DecidableEq, Repr

/-- The `err.Error()` string of a `SendErr` (the wrapped transport cause of
`sendFailed` is abstracted away). -/
def SendErr.errString : SendErr → String
  | .notConnected userID => "user " ++ userID ++ " is not connected"
  | .sendFailed => "failed to send message"

/-- Go `func (h *WSHub) SendToUser(userID string, message WSMessage) error`:
look up the handle (`NotConnected` if absent), write the marshalled
message, and on write failure forcibly `Unregister` the identity and
return `SendFailed`.  `W c` tells whether a write on handle `c` succeeds
(marshalling of a `WSMessage` never fails). -/
def SendToUser (W : ConnId → Bool) (st : HubState) (userID : Identity)
    (message : WSMessage) : Option SendErr × HubState :=
  match lookupConn st.connections userID with
  | none => (some (.notConnected userID), st)
  | some conn =>
      if W conn then
        (none, { st with sent := st.sent ++ [(conn, message)] })
      else
        (some .sendFailed, Unregister st userID)

/-- Go `func (h *WSHub) IsOnline(userID string) bool`. -/
def IsOnline (st : HubState) (userID : Identity) : Bool :=
  (lookupConn st.connections userID).isSome

/-- Go `func (h *WSHub) TriggerPhoto(initiatorID, partnerID string,
timestamp int64) error`: if the partner is offline, send the initiator an
error and return that send's result; otherwise default a zero timestamp to
`now` (`time.Now().UnixMilli()`), send `take_photo` to the initiator
(failure logged only) and then to the partner (failure returned). -/
def TriggerPhoto (W : ConnId → Bool) (now : Int) (st : HubState)
    (initiatorID partnerID : Identity) (timestamp : Int) :
    Option SendErr × HubState :=
  if IsOnline st partnerID = false then
    SendToUser W st initiatorID { type := "error", message := "Partner is offline" }
  else
    let ts := if timestamp = 0 then now else timestamp
    let msg : WSMessage :=
      { type := "take_photo", initiator_id := initiatorID, timestamp := ts }
    let r1 := SendToUser W st initiatorID msg
    SendToUser W r1.2 partnerID msg

/-- Go `func (h *WSHub) NotifyPartnerStatus(userID, partnerID string,
online bool)`: push `partner_status` to the partner; a delivery failure is
logged and swallowed. -/
def NotifyPartnerStatus (W : ConnId → Bool) (st : HubState)
    (_userID partnerID : Identity) (online : Bool) : HubState :=
  if partnerID = "" then st
  else
    (SendToUser W st partnerID { type := "partner_status", online := some online }).2

/-- A sequence of `Register` calls for one identity, oldest first. -/
def registerSeq (st : HubState) (u : Identity) : List ConnId → HubState
  | [] => st
  | c :: cs => registerSeq (Register st u c) u cs

end WSHub

namespace WebSocketHandler

open WSHub

/-- Go `func (h *WebSocketHandler) sendError(conn *websocket.Conn,
message string)`: marshal an `error` message and write it directly to the
connection; the write's error value is discarded, so a failed write leaves
no trace. -/
def sendError (W : ConnId → Bool) (st : HubState) (conn : ConnId)
    (message : String) : HubState :=
  if W conn then
    { st with sent := st.sent ++ [(conn, { type := "error", message := message })] }
  else
    st

/-- Go `func (h *WebSocketHandler) sendErrorToUser(userID, message
string) error`: route an `error` message through the hub. -/
def sendErrorToUser (W : ConnId → Bool) (st : HubState) (userID : Identity)
    (message : String) : Option SendErr × HubState :=
  SendToUser W st userID { type := "error", message := message }

/-- Go `func (h *WebSocketHandler) handleTriggerPhoto(...) error`: resolve
the sender's pair via `pairOf` (`PairService.GetPairByUserID`, `none`
embedding a lookup error), compute the partner by two-way comparison, and
delegate to `WSHub.TriggerPhoto` with the frame's timestamp. -/
def handleTriggerPhoto (W : ConnId → Bool) (now : Int)
    (pairOf : Identity → Option Pair) (st : HubState) (userID : Identity)
    (msg : WSMessage) : Option SendErr × HubState :=
  match pairOf userID with
  | none => sendErrorToUser W st userID "You are not in a pair"
  | some pair =>
      let partnerID := if pair.UserAID = userID then pair.UserBID else pair.UserAID
      TriggerPhoto W now st userID partnerID msg.timestamp

/-- Go `func (h *WebSocketHandler) handlePhotoUploaded(...) error`:
require `photo_id` and `s3_url` non-empty, else an inline error; then
invoke the storage collaborator (`PhotoService.UpdatePhotoS3URL`, success
given by `updateOk`), sending an inline error if it fails. -/
def handlePhotoUploaded (W : ConnId → Bool)
    (updateOk : String → String → Bool) (st : HubState) (userID : Identity)
    (msg : WSMessage) : Option SendErr × HubState :=
  if msg.photo_id = "" ∨ msg.s3_url = "" then
    sendErrorToUser W st userID "photo_id and s3_url are required"
  else
    let st1 := { st with updates := st.updates ++ [(msg.photo_id, msg.s3_url)] }
    if updateOk msg.photo_id msg.s3_url then
      (none, st1)
    else
      sendErrorToUser W st1 userID "Failed to update photo"

/-- Go `func (h *WebSocketHandler) handleMessage(...) error`: the type
switch of the relay. -/
def handleMessage (W : ConnId → Bool) (now : Int)
    (pairOf : Identity → Option Pair) (updateOk : String → String → Bool)
    (st : HubState) (userID : Identity) (msg : WSMessage) :
    Option SendErr × HubState :=
  if msg.type = "trigger_photo" then
    handleTriggerPhoto W now pairOf st userID msg
  else if msg.type = "photo_uploaded" then
    handlePhotoUploaded W updateOk st userID msg
  else
    sendErrorToUser W st userID "Unknown message type"

/-- One inbound transport frame as seen by the read loop: either a frame
`json.Unmarshal` rejects, or a decoded `WSMessage`. -/
inductive Frame where
  | malformed
  | valid (msg : WSMessage)
deriving DecidableEq, Repr

/-- The read loop of `HandleWebSocket` over the frames read before the
transport fails or closes: a malformed frame sends an inline error and
continues; a decoded frame is dispatched to `handleMessage`, whose non-nil
error is sent back inline. -/
def readLoop (W : ConnId → Bool) (now : Int) (pairOf : Identity → Option Pair)
    (updateOk : String → String → Bool) (userID : Identity) (conn : ConnId) :
    HubState → List Frame → HubState
  | st, [] => st
  | st, .malformed :: rest =>
      readLoop W now pairOf updateOk userID conn
        (sendError W st conn "Invalid message format") rest
  | st, .valid msg :: rest =>
      let r := handleMessage W now pairOf updateOk st userID msg
      let st2 :=
        match r.1 with
        | some e => sendError W r.2 conn e.errString
        | none => r.2
      readLoop W now pairOf updateOk userID conn st2 rest

/-- The connection-establishment segment of `HandleWebSocket` after a
successful upgrade: `Register`, then pair lookup; with a pair, notify the
partner online and send the sender `pair_status{has_pair:true,pair_id}`;
without one, send the sender `pair_status{has_pair:false}` (send failures
are logged and swallowed). -/
def connectFlow (W : ConnId → Bool) (pairOf : Identity → Option Pair)
    (st : HubState) (userID : Identity) (conn : ConnId) : HubState :=
  let st1 := Register st userID conn
  match pairOf userID with
  | some pair =>
      let partnerID := if pair.UserAID = userID then pair.UserBID else pair.UserAID
      let st2 := NotifyPartnerStatus W st1 userID partnerID true
      (SendToUser W st2 userID
        { type := "pair_status", data := some (.pairStatus true (some pair.ID)) }).2
  | none =>
      (SendToUser W st1 userID
        { type := "pair_status", data := some (.pairStatus false none) }).2

/-- The teardown segment of `HandleWebSocket`: the deferred
`h.hub.Unregister(userID)` that runs when the read loop exits.  No other
teardown action exists — in particular the handler performs no
partner-offline notification here. -/
def disconnectFlow (st : HubState) (userID : Identity) : HubState :=
  WSHub.Unregister st userID

end WebSocketHandler

namespace PairService

/-- Go `func (s *PairService) CreatePair(ctx, userAID, partnerCode) (*models.Pair, error)`.
Collaborators are passed explicitly: `getByCode` is
`UserRepository.GetByCode` (`none` embeds any error), `userHasPair` is
`PairRepository.UserHasPair` (`none` embeds a repository error), `newID`
is the freshly drawn `uuid.New().String()`, `now` the creation time and
`createOk` whether `PairRepository.Create` succeeds. -/
def CreatePair (getByCode : String → Option User)
    (userHasPair : String → Option Bool) (newID : String) (now : Int)
    (createOk : Bool) (userAID partnerCode : String) : Except String Pair :=
  if partnerCode.length ≠ 6 then
    .error "partner code must be 6 characters"
  else
    match getByCode partnerCode with
    | none => .error "partner not found"
    | some partnerUser =>
        let userBID := partnerUser.ID
        if userAID = userBID then
          .error "cannot create pair with yourself"
        else
          match userHasPair userAID with
          | none => .error "failed to check if user has pair"
          | some true => .error "user is already in a pair"
          | some false =>
              match userHasPair userBID with
              | none => .error "failed to check if partner has pair"
              | some true => .error "partner is already in a pair"
              | some false =>
                  let ab :=
                    if userAID > userBID then (userBID, userAID)
                    else (userAID, userBID)
                  if createOk then
                    .ok { ID := newID, UserAID := ab.1, UserBID := ab.2,
                          CreatedAt := now }
                  else
                    .error "failed to create pair"

end PairService

/-! ### Observation helpers and a concrete two-user session

`msgsTo` and `countMsg` read the delivery trace; the `presenceDemo`
definitions replay, step by step, the session "user `b` connects, user `a`
connects, user `a` disconnects" for the pair `(a, b)` over a transport
whose writes all succeed. -/

/-- The messages successfully delivered on handle `c`, in order. -/
def msgsTo (st : HubState) (c : ConnId) : List WSMessage :=
  (st.sent.filter (fun p => p.1 == c)).map Prod.snd

/-- How many copies of `m` were delivered on handle `c`. -/
def countMsg (st : HubState) (c : ConnId) (m : WSMessage) : Nat :=
  ((msgsTo st c).filter (fun x => decide (x = m))).length

namespace presenceDemo

/-- The stored pair between users `a` and `b`. -/
def pairAB : Pair := { ID := "p1", UserAID := "a", UserBID := "b" }

/-- `PairService.GetPairByUserID` over a database holding only `pairAB`. -/
def pairOfAB : Identity → Option Pair := fun u =>
  if u = "a" ∨ u = "b" then some pairAB else none

/-- A transport on which every write succeeds. -/
def Wok : ConnId → Bool := fun _ => true

/-- State after user `b` connects on handle `0` (fresh hub). -/
def stB : HubState := WebSocketHandler.connectFlow Wok pairOfAB {} "b" 0

/-- State after user `a` then connects on handle `1`. -/
def stBoth : HubState := WebSocketHandler.connectFlow Wok pairOfAB stB "a" 1

/-- State after user `a`'s read loop exits and its deferred teardown runs. -/
def stAfterA : HubState := WebSocketHandler.disconnectFlow stBoth "a"

end presenceDemo

/-! ### Association-list lemmas for the embedded Go map -/

theorem lookupConn_setConn_self (l : List (Identity × ConnId)) (u : Identity)
    (c : ConnId) : lookupConn (setConn l u c) u = some c := by
  induction l with
  | nil => simp [setConn, lookupConn]
  | cons hd tl ih =>
      obtain ⟨k, v⟩ := hd
      by_cases h : k = u <;> simp [setConn, lookupConn, h, ih]

theorem lookupConn_setConn_ne (l : List (Identity × ConnId)) {u u' : Identity}
    (c : ConnId) (h : u' ≠ u) :
    lookupConn (setConn l u c) u' = lookupConn l u' := by
  induction l with
  | nil => simp [setConn, lookupConn, Ne.symm h]
  | cons hd tl ih =>
      obtain ⟨k, v⟩ := hd
      by_cases hk : k = u
      · subst hk
        simp [setConn, lookupConn, Ne.symm h]
      · simp [setConn, lookupConn, hk, ih]

theorem countKey_setConn_self (l : List (Identity × ConnId)) (u : Identity)
    (c : ConnId) : countKey (setConn l u c) u = max (countKey l u) 1 := by
  induction l with
  | nil => simp [setConn, countKey]
  | cons hd tl ih =>
      obtain ⟨k, v⟩ := hd
      by_cases h : k = u
      · subst h
        simp [setConn, countKey]
      · simp [setConn, countKey, h, ih]

theorem countKey_setConn_ne (l : List (Identity × ConnId)) {u u' : Identity}
    (c : ConnId) (h : u' ≠ u) :
    countKey (setConn l u c) u' = countKey l u' := by
  induction l with
  | nil => simp [setConn, countKey, Ne.symm h]
  | cons hd tl ih =>
      obtain ⟨k, v⟩ := hd
      by_cases hk : k = u
      · subst hk
        simp [setConn, countKey, Ne.symm h]
      · simp [setConn, countKey, hk, ih]

theorem lookupConn_eq_none_iff (l : List (Identity × ConnId)) (u : Identity) :
    lookupConn l u = none ↔ countKey l u = 0 := by
  induction l with
  | nil => simp [lookupConn, countKey]
  | cons hd tl ih =>
      obtain ⟨k, v⟩ := hd
      by_cases h : k = u <;> simp [lookupConn, countKey, h, ih]

theorem countKey_eraseConn_self (l : List (Identity × ConnId)) (u : Identity) :
    countKey (eraseConn l u) u = countKey l u - 1 := by
  induction l with
  | nil => simp [eraseConn, countKey]
  | cons hd tl ih =>
      obtain ⟨k, v⟩ := hd
      by_cases h : k = u <;> simp [eraseConn, countKey, h, ih]

theorem countKey_eraseConn_ne (l : List (Identity × ConnId)) {u u' : Identity}
    (h : u' ≠ u) : countKey (eraseConn l u) u' = countKey l u' := by
  induction l with
  | nil => simp [eraseConn, countKey]
  | cons hd tl ih =>
      obtain ⟨k, v⟩ := hd
      by_cases hk : k = u
      · subst hk
        simp [eraseConn, countKey, Ne.symm h]
      · simp [eraseConn, countKey, hk, ih]

theorem lookupConn_eraseConn_self (l : List (Identity × ConnId))
    (u : Identity) (h : countKey l u ≤ 1) :
    lookupConn (eraseConn l u) u = none := by
  rw [lookupConn_eq_none_iff, countKey_eraseConn_self]
  omega

theorem lookupConn_eraseConn_ne (l : List (Identity × ConnId))
    {u u' : Identity} (h : u' ≠ u) :
    lookupConn (eraseConn l u) u' = lookupConn l u' := by
  induction l with
  | nil => simp [eraseConn, lookupConn]
  | cons hd tl ih =>
      obtain ⟨k, v⟩ := hd
      by_cases hk : k = u
      · subst hk
        simp [eraseConn, lookupConn, Ne.symm h]
      · simp [eraseConn, lookupConn, hk, ih]

/-! ### Registry lemmas -/

namespace WSHub

theorem Register_connections (st : HubState) (u : Identity) (c : ConnId) :
    (Register st u c).connections = setConn st.connections u c := by
  cases hl : lookupConn st.connections u <;>
    simp [Register, notifyPartnerStatus, hl]

theorem Register_sent (st : HubState) (u : Identity) (c : ConnId) :
    (Register st u c).sent = st.sent := by
  cases hl : lookupConn st.connections u <;>
    simp [Register, notifyPartnerStatus, hl]

theorem Register_closed_sub (st : HubState) (u : Identity) (c : ConnId) :
    st.closed ⊆ (Register st u c).closed := by
  cases hl : lookupConn st.connections u <;>
    simp [Register, notifyPartnerStatus, hl, List.subset_append_left]

theorem Register_closed_of_lookup {st : HubState} {u : Identity}
    {c0 : ConnId} (c : ConnId) (h : lookupConn st.connections u = some c0) :
    c0 ∈ (Register st u c).closed := by
  simp [Register, notifyPartnerStatus, h]

theorem lookupConn_Register_self (st : HubState) (u : Identity) (c : ConnId) :
    lookupConn (Register st u c).connections u = some c := by
  rw [Register_connections, lookupConn_setConn_self]

theorem WF_Register {st : HubState} (u : Identity) (c : ConnId)
    (h : WF st) : WF (Register st u c) := by
  intro k
  rw [Register_connections]
  by_cases hk : k = u
  · subst hk
    rw [countKey_setConn_self]
    have := h k
    simp only [Nat.max_le]
    omega
  · rw [countKey_setConn_ne _ _ hk]
    exact h k

theorem Unregister_eq_of_lookup {st : HubState} {u : Identity} {c : ConnId}
    (h : lookupConn st.connections u = some c) :
    Unregister st u =
      { st with
        closed := st.closed ++ [c]
        connections := eraseConn st.connections u } := by
  simp [Unregister, notifyPartnerStatus, h]

theorem Unregister_eq_of_none {st : HubState} {u : Identity}
    (h : lookupConn st.connections u = none) : Unregister st u = st := by
  simp [Unregister, notifyPartnerStatus, h]

theorem Unregister_sent (st : HubState) (u : Identity) :
    (Unregister st u).sent = st.sent := by
  cases hl : lookupConn st.connections u <;>
    simp [Unregister, notifyPartnerStatus, hl]

theorem WF_Unregister {st : HubState} (u : Identity) (h : WF st) :
    WF (Unregister st u) := by
  intro k
  cases hl : lookupConn st.connections u with
  | none => rw [Unregister_eq_of_none hl]; exact h k
  | some c =>
      rw [Unregister_eq_of_lookup hl]
      by_cases hk : k = u
      · subst hk
        simp only [countKey_eraseConn_self]
        have := h k
        omega
      · simp only [countKey_eraseConn_ne _ hk]
        exact h k

theorem SendToUser_not_connected {st : HubState} {u : Identity}
    (W : ConnId → Bool) (m : WSMessage)
    (h : lookupConn st.connections u = none) :
    SendToUser W st u m = (some (.notConnected u), st) := by
  simp [SendToUser, h]

theorem SendToUser_delivered {W : ConnId → Bool} {st : HubState}
    {u : Identity} {c : ConnId} (m : WSMessage)
    (h : lookupConn st.connections u = some c) (hW : W c = true) :
    SendToUser W st u m = (none, { st with sent := st.sent ++ [(c, m)] }) := by
  simp [SendToUser, h, hW]

theorem SendToUser_write_failed {W : ConnId → Bool} {st : HubState}
    {u : Identity} {c : ConnId} (m : WSMessage)
    (h : lookupConn st.connections u = some c) (hW : W c = false) :
    SendToUser W st u m = (some .sendFailed, Unregister st u) := by
  simp [SendToUser, h, hW]

theorem registerSeq_closed_sub (st : HubState) (u : Identity)
    (cs : List ConnId) : st.closed ⊆ (registerSeq st u cs).closed := by
  induction cs generalizing st with
  | nil => simp [registerSeq]
  | cons c cs ih =>
      exact (Register_closed_sub st u c).trans (ih (Register st u c))

theorem registerSeq_spec (st : HubState) (u : Identity) (init : List ConnId)
    (clast : ConnId) (hWF : WF st) :
    lookupConn (registerSeq st u (init ++ [clast])).connections u = some clast ∧
    countKey (registerSeq st u (init ++ [clast])).connections u = 1 ∧
    WF (registerSeq st u (init ++ [clast])) ∧
    init ⊆ (registerSeq st u (init ++ [clast])).closed ∧
    (∀ c0, lookupConn st.connections u = some c0 →
      c0 ∈ (registerSeq st u (init ++ [clast])).closed) := by
  induction init generalizing st with
  | nil =>
      simp only [List.nil_append, registerSeq]
      refine ⟨lookupConn_Register_self st u clast, ?_, WF_Register u clast hWF,
        by simp, ?_⟩
      · rw [Register_connections, countKey_setConn_self]
        have := hWF u
        omega
      · intro c0 h0
        exact Register_closed_of_lookup clast h0
  | cons c init ih =>
      simp only [List.cons_append, registerSeq]
      have hWF' : WF (Register st u c) := WF_Register u c hWF
      obtain ⟨h1, h2, h3, h4, h5⟩ := ih (Register st u c) hWF'
      refine ⟨h1, h2, h3, ?_, ?_⟩
      · intro x hx
        rcases List.mem_cons.mp hx with rfl | hx'
        · exact h5 x (lookupConn_Register_self st u x)
        · exact h4 hx'
      · intro c0 h0
        exact registerSeq_closed_sub (Register st u c) u (init ++ [clast])
          (Register_closed_of_lookup c h0)

end WSHub

/-! ### Claim theorems -/

/-- Claim C1, evaluated at the failing input: with `(a, b)` paired and both
connected (`b` on handle 0, `a` on handle 1), user `b` did receive exactly
one `partner_status{online:true}` when `a` registered, but when `a`
unregisters (the deferred teardown of `HandleWebSocket`), no message at
all is sent — in particular `b` receives zero `partner_status{online:false}`
messages, because `WSHub.notifyPartnerStatus` is an empty stub and the
handler never pushes an offline status.  The claim's second half therefore
fails on the code. -/
theorem claim_c1_offline_status_never_sent :
    countMsg presenceDemo.stBoth 0
        { type := "partner_status", online := some true } = 1 ∧
    countMsg presenceDemo.stAfterA 0
        { type := "partner_status", online := some false } = 0 ∧
    presenceDemo.stAfterA.sent = presenceDemo.stBoth.sent ∧
    lookupConn presenceDemo.stAfterA.connections "a" = none :=
  ⟨rfl, rfl, rfl, rfl⟩

/-- Claim C2: starting from any well-formed hub state, after any non-empty
sequence of `Register` calls for identity `u` (handles `init ++ [clast]`),
the registry holds exactly one entry for `u` — the last handle — and every
previously registered handle of the sequence has been closed. -/
theorem claim_c2_at_most_one_live_connection (st : HubState) (u : Identity)
    (init : List ConnId) (clast : ConnId) (hWF : WF st) :
    lookupConn (WSHub.registerSeq st u (init ++ [clast])).connections u
      = some clast ∧
    countKey (WSHub.registerSeq st u (init ++ [clast])).connections u = 1 ∧
    init ⊆ (WSHub.registerSeq st u (init ++ [clast])).closed := by
  obtain ⟨h1, h2, _, h4, _⟩ := WSHub.registerSeq_spec st u init clast hWF
  exact ⟨h1, h2, h4⟩

/-- Witness for claim C2 at a concrete input: registering handles 1, 2, 3
for `x` on an empty hub leaves exactly handle 3 live and handles 1, 2
closed. -/
theorem claim_c2_witness :
    lookupConn (WSHub.registerSeq {} "x" ([1, 2] ++ [3])).connections "x"
      = some 3 ∧
    countKey (WSHub.registerSeq {} "x" ([1, 2] ++ [3])).connections "x" = 1 ∧
    [1, 2] ⊆ (WSHub.registerSeq {} "x" ([1, 2] ++ [3])).closed :=
  claim_c2_at_most_one_live_connection {} "x" [1, 2] 3
    (fun u => by simp [countKey])

/-- Claim C3: `SendToUser` on an identity with no registry entry returns
the not-connected error and leaves the whole state unchanged; on a
registered identity whose write fails, it forcibly unregisters the entry —
the handle is closed, the entry removed, nothing was delivered — and
returns the send-failure error. -/
theorem claim_c3_send_error_handling (W : ConnId → Bool) (st : HubState)
    (u : Identity) (m : WSMessage) (c : ConnId) (hWF : WF st) :
    (lookupConn st.connections u = none →
      WSHub.SendToUser W st u m = (some (.notConnected u), st)) ∧
    (lookupConn st.connections u = some c → W c = false →
      WSHub.SendToUser W st u m = (some .sendFailed, WSHub.Unregister st u) ∧
      lookupConn (WSHub.SendToUser W st u m).2.connections u = none ∧
      c ∈ (WSHub.SendToUser W st u m).2.closed ∧
      (WSHub.SendToUser W st u m).2.sent = st.sent) := by
  constructor
  · intro h
    exact WSHub.SendToUser_not_connected W m h
  · intro h hW
    have heq := WSHub.SendToUser_write_failed m h hW
    have hun := WSHub.Unregister_eq_of_lookup h
    refine ⟨heq, ?_, ?_, ?_⟩
    · rw [heq, hun]
      exact lookupConn_eraseConn_self _ _ (hWF u)
    · rw [heq, hun]
      simp
    · rw [heq, hun]

/-- Witness for claim C3: on a hub where `y` is connected on handle 7 and
every write fails, `SendToUser` evicts `y`, closes handle 7 and returns
the send-failure error. -/
theorem claim_c3_witness :
    WSHub.SendToUser (fun _ => false)
        { connections := [("y", 7)] } "y" { type := "error" }
      = (some .sendFailed,
         WSHub.Unregister { connections := [("y", 7)] } "y") ∧
    lookupConn (WSHub.SendToUser (fun _ => false)
        { connections := [("y", 7)] } "y" { type := "error" }).2.connections "y"
      = none ∧
    7 ∈ (WSHub.SendToUser (fun _ => false)
        { connections := [("y", 7)] } "y" { type := "error" }).2.closed ∧
    (WSHub.SendToUser (fun _ => false)
        { connections := [("y", 7)] } "y" { type := "error" }).2.sent = [] :=
  (claim_c3_send_error_handling (fun _ => false)
      { connections := [("y", 7)] } "y" { type := "error" } 7
      (fun u => by simp [countKey]; split <;> simp)).2 rfl rfl

/-- Claim C9: `Unregister` is keyed by identity alone, so after
`Register u h1; Register u h2`, the single `Unregister u` issued by the
superseded connection's deferred teardown closes the replacement handle
`h2` and removes `u`'s entry, leaving `u` offline. -/
theorem claim_c9_stale_unregister_kills_replacement (st : HubState)
    (u : Identity) (h1 h2 : ConnId) (hWF : WF st) :
    WSHub.IsOnline
        (WSHub.Unregister (WSHub.Register (WSHub.Register st u h1) u h2) u) u
      = false ∧
    h2 ∈ (WSHub.Unregister
        (WSHub.Register (WSHub.Register st u h1) u h2) u).closed ∧
    lookupConn (WSHub.Unregister
        (WSHub.Register (WSHub.Register st u h1) u h2) u).connections u
      = none := by
  set st2 := WSHub.Register (WSHub.Register st u h1) u h2 with hst2
  have hlook : lookupConn st2.connections u = some h2 :=
    WSHub.lookupConn_Register_self _ u h2
  have hWF2 : WF st2 :=
    WSHub.WF_Register u h2 (WSHub.WF_Register u h1 hWF)
  have hun := WSHub.Unregister_eq_of_lookup hlook
  have hnone : lookupConn (WSHub.Unregister st2 u).connections u = none := by
    rw [hun]
    exact lookupConn_eraseConn_self _ _ (hWF2 u)
  refine ⟨?_, ?_, hnone⟩
  · simp [WSHub.IsOnline, hnone]
  · rw [hun]
    simp

/-- Witness for claim C9: on an empty hub, register `x` on handle 1, then
on handle 2, then unregister `x` once — handle 2 is closed and `x` is
offline. -/
theorem claim_c9_witness :
    WSHub.IsOnline
        (WSHub.Unregister (WSHub.Register (WSHub.Register {} "x" 1) "x" 2) "x") "x"
      = false ∧
    2 ∈ (WSHub.Unregister
        (WSHub.Register (WSHub.Register {} "x" 1) "x" 2) "x").closed ∧
    lookupConn (WSHub.Unregister
        (WSHub.Register (WSHub.Register {} "x" 1) "x" 2) "x").connections "x"
      = none :=
  claim_c9_stale_unregister_kills_replacement {} "x" 1 2
    (fun u => by simp [countKey])

/-- Claim C4: with `(X, Y)` paired, `X` online on handle `cx` (writable)
and `Y` offline, a `trigger_photo` from `X` makes `X` receive exactly one
`error` message — the code's text is `"Partner is offline"` — and nothing
else happens: no `take_photo` is delivered to anyone, the registry is
untouched and nothing is queued (the final state differs from the initial
one only by that single error delivery). -/
theorem claim_c4_offline_partner_trigger_error (W : ConnId → Bool)
    (now : Int) (pairOf : Identity → Option Pair) (st : HubState)
    (u : Identity) (msg : WSMessage) (pair : Pair) (cx : ConnId)
    (hpair : pairOf u = some pair)
    (hcx : lookupConn st.connections u = some cx)
    (hW : W cx = true)
    (hoff : lookupConn st.connections
        (if pair.UserAID = u then pair.UserBID else pair.UserAID) = none) :
    WebSocketHandler.handleTriggerPhoto W now pairOf st u msg =
      (none,
       { st with sent := st.sent ++
           [(cx, { type := "error", message := "Partner is offline" })] }) := by
  simp only [WebSocketHandler.handleTriggerPhoto, hpair, WSHub.TriggerPhoto,
    WSHub.IsOnline, hoff, Option.isSome_none, if_pos]
  exact WSHub.SendToUser_delivered _ hcx hW

/-- Witness for claim C4: `a` is online on handle 1, its partner `b` is
offline; a `trigger_photo` from `a` yields exactly one offline error
delivered back to `a`. -/
theorem claim_c4_witness :
    WebSocketHandler.handleTriggerPhoto presenceDemo.Wok 5 presenceDemo.pairOfAB
        { connections := [("a", 1)] } "a" { type := "trigger_photo" } =
      (none,
       { connections := [("a", 1)],
         sent := [(1, { type := "error", message := "Partner is offline" })] }) :=
  claim_c4_offline_partner_trigger_error presenceDemo.Wok 5 presenceDemo.pairOfAB
    { connections := [("a", 1)] } "a" { type := "trigger_photo" }
    presenceDemo.pairAB 1 rfl rfl rfl rfl

/-- Claim C5: with `(X, Y)` paired and both online (`X` on `cx`, partner
`pid = Y` on `cy`), a `trigger_photo` carrying a non-zero timestamp `T`
delivers `take_photo{initiator_id: X, timestamp: T}` to both `X` and `Y`
when both writes succeed; if the write to the partner fails the failure is
returned to the caller (`sendFailed`), while if the write to the sender
fails the call still returns `nil` (the failure is only logged) and the
partner still receives the message. -/
theorem claim_c5_trigger_broadcasts_to_both (W : ConnId → Bool) (now : Int)
    (pairOf : Identity → Option Pair) (st : HubState) (u pid : Identity)
    (msg : WSMessage) (pair : Pair) (cx cy : ConnId) (T : Int)
    (hpair : pairOf u = some pair)
    (hpid : (if pair.UserAID = u then pair.UserBID else pair.UserAID) = pid)
    (hne : pid ≠ u)
    (hcx : lookupConn st.connections u = some cx)
    (hcy : lookupConn st.connections pid = some cy)
    (hT : msg.timestamp = T) (hT0 : T ≠ 0) :
    (W cx = true → W cy = true →
      WebSocketHandler.handleTriggerPhoto W now pairOf st u msg =
        (none,
         { st with sent := st.sent ++
             [(cx, { type := "take_photo", initiator_id := u, timestamp := T }),
              (cy, { type := "take_photo", initiator_id := u, timestamp := T })] })) ∧
    (W cx = true → W cy = false →
      (WebSocketHandler.handleTriggerPhoto W now pairOf st u msg).1
        = some .sendFailed ∧
      (WebSocketHandler.handleTriggerPhoto W now pairOf st u msg).2.sent
        = st.sent ++
            [(cx, { type := "take_photo", initiator_id := u, timestamp := T })]) ∧
    (W cx = false → W cy = true →
      (WebSocketHandler.handleTriggerPhoto W now pairOf st u msg).1 = none ∧
      (WebSocketHandler.handleTriggerPhoto W now pairOf st u msg).2.sent
        = st.sent ++
            [(cy, { type := "take_photo", initiator_id := u, timestamp := T })]) := by
  have honline : WSHub.IsOnline st pid = true := by
    simp [WSHub.IsOnline, hcy]
  refine ⟨?_, ?_, ?_⟩
  · intro hWx hWy
    simp only [WebSocketHandler.handleTriggerPhoto, hpair, hpid,
      WSHub.TriggerPhoto, honline, Bool.true_eq_false, if_false, hT, if_neg hT0,
      WSHub.SendToUser_delivered _ hcx hWx]
    have hcy' : lookupConn
        ({ st with sent := st.sent ++
            [(cx, { type := "take_photo", initiator_id := u, timestamp := T })]
          : HubState }).connections pid = some cy := hcy
    simp [WSHub.SendToUser_delivered _ hcy' hWy]
  · intro hWx hWy
    simp only [WebSocketHandler.handleTriggerPhoto, hpair, hpid,
      WSHub.TriggerPhoto, honline, Bool.true_eq_false, if_false, hT, if_neg hT0,
      WSHub.SendToUser_delivered _ hcx hWx]
    have hcy' : lookupConn
        ({ st with sent := st.sent ++
            [(cx, { type := "take_photo", initiator_id := u, timestamp := T })]
          : HubState }).connections pid = some cy := hcy
    simp [WSHub.SendToUser_write_failed _ hcy' hWy, WSHub.Unregister_sent]
  · intro hWx hWy
    simp only [WebSocketHandler.handleTriggerPhoto, hpair, hpid,
      WSHub.TriggerPhoto, honline, Bool.true_eq_false, if_false, hT, if_neg hT0,
      WSHub.SendToUser_write_failed _ hcx hWx,
      WSHub.Unregister_eq_of_lookup hcx]
    have hcy' : lookupConn
        ({ st with
            closed := st.closed ++ [cx]
            connections := eraseConn st.connections u } : HubState).connections pid
        = some cy := by
      simpa [lookupConn_eraseConn_ne _ hne] using hcy
    simp [WSHub.SendToUser_delivered _ hcy' hWy]

/-- Witness for claim C5, successful branch: `a` on handle 1 and `b` on
handle 0, all writes succeeding, timestamp 42. -/
theorem claim_c5_witness :
    WebSocketHandler.handleTriggerPhoto presenceDemo.Wok 5 presenceDemo.pairOfAB
        { connections := [("b", 0), ("a", 1)] } "a"
        { type := "trigger_photo", timestamp := 42 } =
      (none,
       { connections := [("b", 0), ("a", 1)],
         sent := [(1, { type := "take_photo", initiator_id := "a", timestamp := 42 }),
                  (0, { type := "take_photo", initiator_id := "a", timestamp := 42 })] }) :=
  (claim_c5_trigger_broadcasts_to_both presenceDemo.Wok 5 presenceDemo.pairOfAB
      { connections := [("b", 0), ("a", 1)] } "a" "b"
      { type := "trigger_photo", timestamp := 42 }
      presenceDemo.pairAB 1 0 42 rfl rfl (by decide) rfl rfl rfl
      (by decide)).1 rfl rfl

/-- Claim C6: a `trigger_photo` whose timestamp field is zero (the JSON
zero value, i.e. omitted or explicit `0`) produces `take_photo` messages
whose timestamp is the processing-time clock `now`
(`time.Now().UnixMilli()`), which is non-zero and at least the receipt
time `recv` under the clock assumptions `0 < now` and `recv ≤ now`. -/
theorem claim_c6_default_timestamp (W : ConnId → Bool) (now recv : Int)
    (pairOf : Identity → Option Pair) (st : HubState) (u pid : Identity)
    (msg : WSMessage) (pair : Pair) (cx cy : ConnId)
    (hpair : pairOf u = some pair)
    (hpid : (if pair.UserAID = u then pair.UserBID else pair.UserAID) = pid)
    (hcx : lookupConn st.connections u = some cx)
    (hcy : lookupConn st.connections pid = some cy)
    (hWx : W cx = true) (hWy : W cy = true)
    (hts : msg.timestamp = 0) (hnow : 0 < now) (hrecv : recv ≤ now) :
    WebSocketHandler.handleTriggerPhoto W now pairOf st u msg =
      (none,
       { st with sent := st.sent ++
           [(cx, { type := "take_photo", initiator_id := u, timestamp := now }),
            (cy, { type := "take_photo", initiator_id := u, timestamp := now })] }) ∧
    now ≠ 0 ∧ recv ≤ now := by
  have honline : WSHub.IsOnline st pid = true := by
    simp [WSHub.IsOnline, hcy]
  refine ⟨?_, hnow.ne', hrecv⟩
  simp only [WebSocketHandler.handleTriggerPhoto, hpair, hpid,
    WSHub.TriggerPhoto, honline, Bool.true_eq_false, if_false, hts, if_pos rfl,
    WSHub.SendToUser_delivered _ hcx hWx]
  have hcy' : lookupConn
      ({ st with sent := st.sent ++
          [(cx, { type := "take_photo", initiator_id := u, timestamp := now })]
        : HubState }).connections pid = some cy := hcy
  simp [WSHub.SendToUser_delivered _ hcy' hWy]

/-- Witness for claim C6: a zero-timestamp `trigger_photo` from `a` at
clock 1705315200000 (receipt time 1705315199000) stamps both `take_photo`
messages with the clock value. -/
theorem claim_c6_witness :
    WebSocketHandler.handleTriggerPhoto presenceDemo.Wok 1705315200000
        presenceDemo.pairOfAB { connections := [("b", 0), ("a", 1)] } "a"
        { type := "trigger_photo" } =
      (none,
       { connections := [("b", 0), ("a", 1)],
         sent := [(1, { type := "take_photo", initiator_id := "a",
                        timestamp := 1705315200000 }),
                  (0, { type := "take_photo", initiator_id := "a",
                        timestamp := 1705315200000 })] }) ∧
    (1705315200000 : Int) ≠ 0 ∧ (1705315199000 : Int) ≤ 1705315200000 :=
  claim_c6_default_timestamp presenceDemo.Wok 1705315200000 1705315199000
    presenceDemo.pairOfAB { connections := [("b", 0), ("a", 1)] } "a" "b"
    { type := "trigger_photo" } presenceDemo.pairAB 1 0
    rfl rfl rfl rfl rfl rfl rfl (by decide) (by decide)

theorem readLoop_malformed_replicate (W : ConnId → Bool) (now : Int)
    (pairOf : Identity → Option Pair) (updateOk : String → String → Bool)
    (u : Identity) (conn : ConnId) (hW : W conn = true) :
    ∀ (n : Nat) (st : HubState),
      WebSocketHandler.readLoop W now pairOf updateOk u conn st
          (List.replicate n .malformed)
        = { st with sent := st.sent ++ (List.replicate n
              (conn, { type := "error", message := "Invalid message format" })) } := by
  intro n
  induction n with
  | zero => intro st; simp [WebSocketHandler.readLoop]
  | succ n ih =>
      intro st
      rw [List.replicate_succ]
      show WebSocketHandler.readLoop W now pairOf updateOk u conn
          (WebSocketHandler.sendError W st conn "Invalid message format")
          (List.replicate n .malformed) = _
      rw [ih]
      simp [WebSocketHandler.sendError, hW, List.replicate_succ]

/-- Claim C7: with the connection writable, feeding the read loop `n`
undecodable frames delivers exactly `n` inline `error` messages — the
code's text is `"Invalid message format"` — on that connection and changes
nothing else: the registry (`connections`, `closed`) and the storage trace
are untouched.  The second conjunct is the loop-continuation equation: a
malformed frame only appends its error and the loop keeps consuming the
remaining frames, so the connection is not terminated. -/
theorem claim_c7_malformed_frame_idempotence (W : ConnId → Bool) (now : Int)
    (pairOf : Identity → Option Pair) (updateOk : String → String → Bool)
    (st : HubState) (u : Identity) (conn : ConnId) (n : Nat)
    (rest : List WebSocketHandler.Frame) (hW : W conn = true) :
    WebSocketHandler.readLoop W now pairOf updateOk u conn st
        (List.replicate n .malformed)
      = { st with sent := st.sent ++ (List.replicate n
            (conn, { type := "error", message := "Invalid message format" })) } ∧
    WebSocketHandler.readLoop W now pairOf updateOk u conn st
        (.malformed :: rest)
      = WebSocketHandler.readLoop W now pairOf updateOk u conn
          { st with sent := st.sent ++
              [(conn, { type := "error", message := "Invalid message format" })] }
          rest := by
  constructor
  · exact readLoop_malformed_replicate W now pairOf updateOk u conn hW n st
  · show WebSocketHandler.readLoop W now pairOf updateOk u conn
        (WebSocketHandler.sendError W st conn "Invalid message format") rest = _
    rw [WebSocketHandler.sendError, hW]
    simp

/-- Witness for claim C7: three malformed frames on handle 1 produce three
inline format errors and nothing else, and the loop equation holds for a
singleton remainder. -/
theorem claim_c7_witness :
    WebSocketHandler.readLoop presenceDemo.Wok 5 presenceDemo.pairOfAB
        (fun _ _ => true) "a" 1 { connections := [("a", 1)] }
        (List.replicate 3 .malformed)
      = { connections := [("a", 1)],
          sent := List.replicate 3
            (1, { type := "error", message := "Invalid message format" }) } ∧
    WebSocketHandler.readLoop presenceDemo.Wok 5 presenceDemo.pairOfAB
        (fun _ _ => true) "a" 1 { connections := [("a", 1)] }
        (.malformed :: [.malformed])
      = WebSocketHandler.readLoop presenceDemo.Wok 5 presenceDemo.pairOfAB
          (fun _ _ => true) "a" 1
          { connections := [("a", 1)],
            sent := [(1, { type := "error", message := "Invalid message format" })] }
          [.malformed] :=
  claim_c7_malformed_frame_idempotence presenceDemo.Wok 5 presenceDemo.pairOfAB
    (fun _ _ => true) { connections := [("a", 1)] } "a" 1 3 [.malformed] rfl

/-- Claim C8: for a `photo_uploaded` message from `u` (online on a
writable handle `cx`): if `photo_id` or `s3_url` is empty, `u` receives an
inline error and the storage collaborator is never invoked (the `updates`
trace is unchanged); otherwise the storage collaborator is invoked exactly
once with `(photo_id, s3_url)`, and on collaborator failure `u` receives
an inline error — the code's text is `"Failed to update photo"`. -/
theorem claim_c8_photo_uploaded_validation (W : ConnId → Bool)
    (updateOk : String → String → Bool) (st : HubState) (u : Identity)
    (msg : WSMessage) (cx : ConnId)
    (hcx : lookupConn st.connections u = some cx) (hW : W cx = true) :
    (msg.photo_id = "" ∨ msg.s3_url = "" →
      WebSocketHandler.handlePhotoUploaded W updateOk st u msg =
        (none,
         { st with sent := st.sent ++
             [(cx, { type := "error",
                     message := "photo_id and s3_url are required" })] })) ∧
    (msg.photo_id ≠ "" → msg.s3_url ≠ "" →
      (updateOk msg.photo_id msg.s3_url = true →
        WebSocketHandler.handlePhotoUploaded W updateOk st u msg =
          (none,
           { st with updates := st.updates ++ [(msg.photo_id, msg.s3_url)] })) ∧
      (updateOk msg.photo_id msg.s3_url = false →
        WebSocketHandler.handlePhotoUploaded W updateOk st u msg =
          (none,
           { st with
               updates := st.updates ++ [(msg.photo_id, msg.s3_url)]
               sent := st.sent ++
                 [(cx, { type := "error",
                         message := "Failed to update photo" })] }))) := by
  constructor
  · intro hempty
    simp only [WebSocketHandler.handlePhotoUploaded, if_pos hempty,
      WebSocketHandler.sendErrorToUser]
    exact WSHub.SendToUser_delivered _ hcx hW
  · intro hp hs
    have hcond : ¬(msg.photo_id = "" ∨ msg.s3_url = "") := by
      simp [hp, hs]
    constructor
    · intro hok
      simp [WebSocketHandler.handlePhotoUploaded, hcond, hok]
    · intro hfail
      simp only [WebSocketHandler.handlePhotoUploaded, if_neg hcond, hfail,
        Bool.false_eq_true, if_false, WebSocketHandler.sendErrorToUser]
      have hcx' : lookupConn
          ({ st with updates := st.updates ++ [(msg.photo_id, msg.s3_url)]
            : HubState }).connections u = some cx := hcx
      simp [WSHub.SendToUser_delivered _ hcx' hW]

/-- Witness for claim C8, collaborator-failure branch: a well-formed
`photo_uploaded` whose storage update fails records the invocation and
sends the update-failure error back to `a`. -/
theorem claim_c8_witness :
    WebSocketHandler.handlePhotoUploaded presenceDemo.Wok (fun _ _ => false)
        { connections := [("a", 1)] } "a"
        { type := "photo_uploaded", photo_id := "ph1", s3_url := "s3://x" } =
      (none,
       { connections := [("a", 1)],
         updates := [("ph1", "s3://x")],
         sent := [(1, { type := "error",
                        message := "Failed to update photo" })] }) :=
  ((claim_c8_photo_uploaded_validation presenceDemo.Wok (fun _ _ => false)
      { connections := [("a", 1)] } "a"
      { type := "photo_uploaded", photo_id := "ph1", s3_url := "s3://x" } 1
      rfl rfl).2 (by decide) (by decide)).2 rfl

/-- Claim C10: every pair successfully returned by `CreatePair` has its
first member strictly lexicographically smaller than its second —
self-pairing is rejected and the service swaps the two identities when the
initiator's is the larger — regardless of which member initiated. -/
theorem claim_c10_create_pair_canonical_order
    (getByCode : String → Option User) (userHasPair : String → Option Bool)
    (newID : String) (now : Int) (createOk : Bool)
    (userAID partnerCode : String) (pair : Pair)
    (h : PairService.CreatePair getByCode userHasPair newID now createOk
        userAID partnerCode = .ok pair) :
    pair.UserAID < pair.UserBID := by
  unfold PairService.CreatePair at h
  dsimp only at h
  split at h
  · simp at h
  · split at h
    · simp at h
    · rename_i partnerUser hcode
      split at h
      · simp at h
      · rename_i hne
        split at h
        · simp at h
        · simp at h
        · split at h
          · simp at h
          · simp at h
          · split at h
            · simp only [Except.ok.injEq] at h
              subst h
              dsimp only
              split
              · rename_i hgt
                simpa using hgt
              · rename_i hgt
                simpa using lt_of_le_of_ne (le_of_not_lt hgt) hne
            · simp at h

/-- Witness for claim C10: user `a` pairs with the user whose code is
`BBBBBB` and whose identity is `b`; the created pair is ordered `(a, b)`,
so its first member is strictly smaller. -/
theorem claim_c10_witness : ("a" : String) < "b" :=
  claim_c10_create_pair_canonical_order
    (fun _ => some { ID := "b", Code := "BBBBBB" }) (fun _ => some false)
    "p1" 0 true "a" "BBBBBB"
    { ID := "p1", UserAID := "a", UserBID := "b", CreatedAt := 0 }
    (by
      have hgt : ¬ (("a" : String) > "b") := by
        rw [gt_iff_lt, String.lt_iff_toList_lt]
        decide
      unfold PairService.CreatePair
      simp [hgt]
      decide)
